import Mathlib

/-!
Shallow embedding of the Real-Time Signal Generation & Control Framework
(PyVISA sweep-and-log test executor) in Lean 4.

Two variants are embedded:
* the batch script (`smart_signal_test_framework.py`): nested sweep over
  waveform × frequency × amplitude with a try/except around the measurement
  query only;
* the interactive variant (`smart_signal_gui.py`): `init_log`, `run_test`
  (whole per-trial block inside one try/except), `validate_inputs`,
  `start_test`, and the pure `plot_waveform` sample generator.

The instrument session is modelled as an environment assigning to each
configuration the faults of its three configuration writes and the reply
(or fault) of its measurement query.  The log store is a list of rows; a
possibly-nonexistent file is an `Option` of such a list.
-/

namespace SignalFramework

/-- Waveform shape tokens, shared by both variants (`waveform_types`). -/
def waveform_types : List String := ["SIN", "SQU", "TRI"]

/-- Batch variant sweep start frequency in Hz. -/
def start_freq : Int := 1000

/-- Batch variant sweep stop frequency in Hz. -/
def stop_freq : Int := 5000

/-- Batch variant sweep frequency step in Hz. -/
def step_freq : Int := 1000

/-- Batch variant amplitude list in Vpp. -/
def amplitudes : List ℚ := [1, 2, 3]

/-- Interactive variant frequency floor for validation (Hz). -/
def freq_min : Int := 10

/-- Interactive variant frequency ceiling for validation (Hz). -/
def freq_max : Int := 1000000

/-- Interactive variant amplitude floor for validation (Vpp); 0.1 as an exact rational. -/
def amp_min : ℚ := 1 / 10

/-- Interactive variant amplitude ceiling for validation (Vpp). -/
def amp_max : ℚ := 10

/-- The fixed 5-column CSV header row written by both variants. -/
def header : List String :=
  ["Timestamp", "Waveform", "Frequency (Hz)", "Amplitude (Vpp)", "Measured Voltage (V)"]

/-- The sentinel recorded when a measurement cannot be obtained: both variants
write the literal string "N/A" (the spec calls this sentinel "unavailable"). -/
def sentinel : String := "N/A"

/-- Python `range(start, stop, step)` for a positive `step`: the integers
`start, start+step, ...` strictly below `stop`. -/
def pyRange (start stop step : Int) : List Int :=
  (List.range (((stop - start + step - 1) / step).toNat)).map fun i => start + (i : Int) * step

/-- The frequency list the batch sweep iterates:
`range(start_freq, stop_freq + step_freq, step_freq)` from the source. -/
def batchFreqs : List Int := pyRange start_freq (stop_freq + step_freq) step_freq

/-- One test configuration: waveform shape token, frequency in Hz, amplitude in Vpp. -/
structure Config where
  waveform : String
  freq : Int
  amp : ℚ
deriving DecidableEq

/-- Behaviour of the instrument session on one trial: whether each of the three
configuration writes (`FUNC`, `FREQ`, `VOLT`) raises, and the measurement
query's reply (`some reply`) or fault (`none`). -/
structure TrialBehavior where
  funcWriteFault : Bool
  freqWriteFault : Bool
  voltWriteFault : Bool
  queryReply : Option String
deriving DecidableEq

/-- Whether any of the three configuration writes raises on this trial. -/
def TrialBehavior.writeFault (b : TrialBehavior) : Bool :=
  b.funcWriteFault || b.freqWriteFault || b.voltWriteFault

/-- One trial result, timestamp abstracted away (it is wall-clock data the
spec itself excludes from the determinism contract). -/
structure TrialResult where
  waveform : String
  freq : Int
  amp : ℚ
  voltage : String
deriving DecidableEq

/-- Build the trial result persisted for configuration `c` with voltage field `v`. -/
def mkResult (c : Config) (v : String) : TrialResult :=
  ⟨c.waveform, c.freq, c.amp, v⟩

/-- Project a trial result back to its configuration (drops the voltage field). -/
def toCfg (r : TrialResult) : Config :=
  ⟨r.waveform, r.freq, r.amp⟩

/-- Voltage string recorded by the batch variant's try/except around the query:
the stripped reply on success, the sentinel when the query raises. -/
def measuredVoltage (b : TrialBehavior) : String :=
  match b.queryReply with
  | some reply => reply.trim
  | none => sentinel

/-- State of a (possibly halted) batch sweep: the trial results logged so far,
and whether an unhandled exception halted the run. -/
structure SweepState where
  log : List TrialResult
  halted : Bool
deriving DecidableEq

/-- The batch sweep body over a list of configurations: per configuration the
three writes are issued outside any try block (a write fault propagates and
halts the whole sweep, logging nothing further), then the query is attempted
inside try/except, substituting the sentinel on fault, and one row is logged. -/
def runSweepBatch (env : Config → TrialBehavior) : List Config → SweepState
  | [] => ⟨[], false⟩
  | c :: rest =>
    if (env c).writeFault then ⟨[], true⟩
    else
      let tail := runSweepBatch env rest
      ⟨mkResult c (measuredVoltage (env c)) :: tail.log, tail.halted⟩

/-- The configuration enumeration of the batch sweep's three nested loops:
waveform outer, frequency middle, amplitude inner. -/
def sweepConfigs (ws : List String) (fs : List Int) (amps : List ℚ) : List Config :=
  ws.flatMap fun w => fs.flatMap fun f => amps.map fun a => ⟨w, f, a⟩

/-- The batch script's concrete parameter space. -/
def batchConfigs : List Config := sweepConfigs waveform_types batchFreqs amplitudes

/-- A log row. -/
abbrev Row := List String

/-- Append one row at the end of the store, never touching prior rows. -/
def appendRow (store : List Row) (row : Row) : List Row :=
  store ++ [row]

/-- Append a list of rows one call at a time. -/
def appendAll (store : List Row) (newRows : List Row) : List Row :=
  newRows.foldl appendRow store

/-- The interactive variant's `init_log`: try to open the file for reading; only
on `FileNotFoundError` (store nonexistent) create it with the header row.  An
existing store — even an empty one — is left untouched. -/
def init_log (store : Option (List Row)) : Option (List Row) :=
  match store with
  | none => some [header]
  | some rows => some rows

/-- The batch variant's CSV logging setup: open in append mode (creating the
file when missing), seek to the end, and write the header iff the file is
empty. -/
def batchLogSetup (store : Option (List Row)) : List Row :=
  let rows := store.getD []
  if rows.isEmpty then [header] else rows

/-- The instrument commands attempted during one interactive trial: each write
is attempted only if the previous one did not raise, and the measurement query
only if all three writes succeeded. -/
def trialCommands (c : Config) (b : TrialBehavior) : List String :=
  ["FUNC " ++ c.waveform] ++
    (if b.funcWriteFault then [] else
      ["FREQ " ++ toString c.freq] ++
        (if b.freqWriteFault then [] else
          ["VOLT " ++ toString c.amp] ++
            (if b.voltWriteFault then [] else ["MEAS:VOLT:DC?"])))

/-- The interactive variant's `run_test`: the whole per-trial block (three
writes, settle delay, query) sits inside one try/except, so any fault in it
yields the sentinel; the log append then happens unconditionally, outside the
try.  Returns the commands attempted, the voltage string, and the new store. -/
def run_test (env : Config → TrialBehavior) (c : Config) (ts : String)
    (store : List Row) : List String × String × List Row :=
  let b := env c
  let voltage := if b.writeFault then sentinel else measuredVoltage b
  (trialCommands c b, voltage,
    appendRow store [ts, c.waveform, toString c.freq, toString c.amp, voltage])

/-- The interactive variant's `validate_inputs`: read both entry variables
(`none` models a `TclError` on reading), reject a read failure and any
out-of-range value. -/
def validate_inputs (freqRead : Option Int) (ampRead : Option ℚ) : Bool :=
  match freqRead, ampRead with
  | some freq, some amp =>
    if freq < freq_min ∨ freq > freq_max then false
    else if amp < amp_min ∨ amp > amp_max then false
    else true
  | _, _ => false

/-- Accumulate a run of decimal digits; fails on any non-digit character. -/
def parseNatDigits : List Char → Nat → Option Nat
  | [], acc => some acc
  | c :: cs, acc =>
    if c.isDigit then parseNatDigits cs (acc * 10 + (c.toNat - 48)) else none

/-- Fractional digits after the decimal point, as `num / den`. -/
def parseFracPart : List Char → Nat → Nat → Option ℚ
  | [], num, den => some ((num : ℚ) / (den : ℚ))
  | c :: cs, num, den =>
    if c.isDigit then parseFracPart cs (num * 10 + (c.toNat - 48)) (den * 10) else none

/-- Digits with at most one decimal point. -/
def parseDecimalDigits : List Char → Nat → Option ℚ
  | [], acc => some (acc : ℚ)
  | c :: cs, acc =>
    if c = '.' then parseFracPart cs acc 1
    else if c.isDigit then parseDecimalDigits cs (acc * 10 + (c.toNat - 48)) else none

/-- Modelled library behavior: `tk.IntVar.get` parses the entry text as a Tcl
integer (an optional sign followed by digits) and raises `TclError` (here
`none`) on anything else — in particular on any text containing a decimal
point, such as "10.5". -/
def tclGetInt (s : String) : Option Int :=
  let cs := s.toList
  if cs.isEmpty then none
  else if cs.head? = some '-' then
    if cs.tail.isEmpty then none else (parseNatDigits cs.tail 0).map fun n => -(n : Int)
  else (parseNatDigits cs 0).map fun n => (n : Int)

/-- Modelled library behavior: `tk.DoubleVar.get` parses the entry text as a
decimal number (optional sign, digits, optional fractional part), raising
`TclError` (here `none`) otherwise. -/
def tclGetDouble (s : String) : Option ℚ :=
  let cs := s.toList
  if cs.isEmpty then none
  else if cs.head? = some '-' then
    if cs.tail.isEmpty then none else (parseDecimalDigits cs.tail 0).map fun q => -q
  else parseDecimalDigits cs 0

/-- The interactive variant's `start_test`: validate the two entries; on
failure return immediately (no command, no log row, no result display); on
success run the trial and display its voltage.  Returns the commands issued,
the new store, and the displayed result. -/
def start_test (env : Config → TrialBehavior) (ts : String) (waveformSel : String)
    (freqEntry ampEntry : String) (store : List Row) :
    List String × List Row × Option String :=
  if validate_inputs (tclGetInt freqEntry) (tclGetDouble ampEntry) then
    match tclGetInt freqEntry, tclGetDouble ampEntry with
    | some freq, some amp =>
      let r := run_test env ⟨waveformSel, freq, amp⟩ ts store
      (r.1, r.2.2, some r.2.1)
    | _, _ => ([], store, none)
  else ([], store, none)

/-- Outcome of process startup: early `exit()` (batch), a fatal startup error
(interactive `RuntimeError`), or a running process; each carries the log store
left behind and the instrument commands issued so far. -/
inductive StartOutcome where
  | exited (store : Option (List Row)) (commands : List String)
  | fatalError (store : Option (List Row)) (commands : List String)
  | running (store : Option (List Row)) (commands : List String)
deriving DecidableEq

/-- Batch variant startup: with no discovered device, print and `exit()` before
any file access or instrument command; otherwise query `*IDN?` and run the CSV
logging setup. -/
def batchStartup (devices : List String) (store : Option (List Row)) : StartOutcome :=
  if devices.isEmpty then .exited store []
  else .running (some (batchLogSetup store)) ["*IDN?"]

/-- Interactive variant startup: with no discovered device, raise a
`RuntimeError` before `init_log` and before the GUI is constructed; otherwise
query `*IDN?`, initialise the log, and reach the interactive surface. -/
def guiStartup (devices : List String) (store : Option (List Row)) : StartOutcome :=
  if devices.isEmpty then .fatalError store []
  else .running (init_log store) ["*IDN?"]

/-- The waveform sample generator of `plot_waveform`, pointwise: SIN is
`a·sin(2πft)`, SQU is `a·sign(sin(2πft))` with numpy's `sign(0) = 0`
convention, TRI is `a·(2/π)·arcsin(sin(2πft))`, anything else is 0.  Here `a`
is the peak amplitude (half the configured peak-to-peak value). -/
noncomputable def sampleAt (waveform : String) (f a t : ℝ) : ℝ :=
  if waveform = "SIN" then a * Real.sin (2 * Real.pi * f * t)
  else if waveform = "SQU" then a * Real.sign (Real.sin (2 * Real.pi * f * t))
  else if waveform = "TRI" then a * (2 / Real.pi) * Real.arcsin (Real.sin (2 * Real.pi * f * t))
  else 0

/-- The sample sequence over a time domain given as a list of sample times. -/
noncomputable def plot_samples (waveform : String) (f a : ℝ) (ts : List ℝ) : List ℝ :=
  ts.map (sampleAt waveform f a)

/-- The sample generator run against a world (instrument environment and log
store): the source's plotting path issues no instrument command and performs
no log write, so the world is returned unchanged next to the samples. -/
noncomputable def plot_waveform_run (env : Config → TrialBehavior) (store : List Row)
    (waveform : String) (f a : ℝ) (ts : List ℝ) :
    List ℝ × (Config → TrialBehavior) × List Row :=
  (plot_samples waveform f a ts, env, store)

/-- C3: with start frequency 1000, stop 5000, step 1000, the batch sweep's
frequency sequence `range(start_freq, stop_freq + step_freq, step_freq)` is
exactly [1000, 2000, 3000, 4000, 5000], inclusive of the stop value. -/
theorem freq_sequence_inclusive :
    batchFreqs = [1000, 2000, 3000, 4000, 5000] := by
  decide

/-- C8: for every frequency and peak amplitude, the waveform sample generator
yields sample value 0 at t = 0 for all three waveform kinds, using the
sign(0) = 0 convention for the square wave. -/
theorem samples_zero_at_time_zero (f a : ℝ) :
    sampleAt "SIN" f a 0 = 0 ∧ sampleAt "SQU" f a 0 = 0 ∧ sampleAt "TRI" f a 0 = 0 := by
  refine ⟨?_, ?_, ?_⟩ <;> simp [sampleAt, Real.sign_zero]

/-- C9: the waveform sample generator is a deterministic pure function: its
sample sequence depends only on (waveform kind, frequency, amplitude, time
domain) — not on the instrument environment or the log store — and it leaves
both unchanged (no side effects, no hardware access). -/
theorem sample_generator_pure (env1 env2 : Config → TrialBehavior)
    (store1 store2 : List Row) (w : String) (f a : ℝ) (ts : List ℝ) :
    (plot_waveform_run env1 store1 w f a ts).1 = (plot_waveform_run env2 store2 w f a ts).1 ∧
    plot_waveform_run env1 store1 w f a ts = (plot_samples w f a ts, env1, store1) :=
  ⟨rfl, rfl⟩

/-- C1: when the measurement query raises on a trial whose configuration
writes succeed, the persisted trial result's voltage field is the sentinel, a
log row is still produced for that trial, and the sweep proceeds with the
remaining configurations without aborting; likewise the interactive variant's
`run_test` records the sentinel and still appends its log row. -/
theorem measurement_fault_sentinel (env : Config → TrialBehavior) (c : Config)
    (rest : List Config) (ts : String) (store : List Row)
    (hw : (env c).writeFault = false) (hq : (env c).queryReply = none) :
    runSweepBatch env (c :: rest) =
      ⟨mkResult c sentinel :: (runSweepBatch env rest).log, (runSweepBatch env rest).halted⟩ ∧
    run_test env c ts store =
      (trialCommands c (env c), sentinel,
        appendRow store [ts, c.waveform, toString c.freq, toString c.amp, sentinel]) := by
  constructor
  · simp [runSweepBatch, hw, measuredVoltage, hq]
  · simp [run_test, hw, measuredVoltage, hq]

/-- Witness for C1 at a concrete environment whose query always faults. -/
theorem measurement_fault_sentinel_witness :
    ((fun _ : Config => TrialBehavior.mk false false false none)
        ⟨"SIN", 1000, 1⟩).writeFault = false ∧
    ((fun _ : Config => TrialBehavior.mk false false false none)
        ⟨"SIN", 1000, 1⟩).queryReply = none ∧
    (runSweepBatch (fun _ => TrialBehavior.mk false false false none)
        [⟨"SIN", 1000, 1⟩, ⟨"SQU", 2000, 2⟩] =
      ⟨mkResult ⟨"SIN", 1000, 1⟩ sentinel ::
          (runSweepBatch (fun _ => TrialBehavior.mk false false false none)
            [⟨"SQU", 2000, 2⟩]).log,
        (runSweepBatch (fun _ => TrialBehavior.mk false false false none)
          [⟨"SQU", 2000, 2⟩]).halted⟩ ∧
      run_test (fun _ => TrialBehavior.mk false false false none) ⟨"SIN", 1000, 1⟩ "t0" [] =
        (trialCommands ⟨"SIN", 1000, 1⟩
            ((fun _ : Config => TrialBehavior.mk false false false none) ⟨"SIN", 1000, 1⟩),
          sentinel,
          appendRow [] ["t0", "SIN", toString (1000 : Int), toString (1 : ℚ), sentinel])) :=
  ⟨rfl, rfl, measurement_fault_sentinel _ _ _ _ _ rfl rfl⟩

/-- C4: a fault in a configuration write is unhandled in the batch variant —
it propagates, halting the sweep with no row for that trial and none after —
whereas in the interactive variant any fault in the per-trial block (a
configuration write or the query) is recovered as the sentinel result, with
the log row still appended. -/
theorem write_fault_semantics (env env2 : Config → TrialBehavior) (c c2 : Config)
    (rest : List Config) (ts : String) (store : List Row)
    (hbatch : (env c).writeFault = true)
    (hgui : (env2 c2).writeFault = true ∨ (env2 c2).queryReply = none) :
    runSweepBatch env (c :: rest) = ⟨[], true⟩ ∧
    run_test env2 c2 ts store =
      (trialCommands c2 (env2 c2), sentinel,
        appendRow store [ts, c2.waveform, toString c2.freq, toString c2.amp, sentinel]) := by
  constructor
  · simp [runSweepBatch, hbatch]
  · rcases hgui with h | h
    · simp [run_test, h]
    · cases hwf : (env2 c2).writeFault
      · simp [run_test, hwf, measuredVoltage, h]
      · simp [run_test, hwf]

/-- Witness for C4: a `FUNC` write fault halts the batch sweep; the same fault
in the interactive variant yields a sentinel row. -/
theorem write_fault_semantics_witness :
    ((fun _ : Config => TrialBehavior.mk true false false (some "0.5"))
        ⟨"SIN", 1000, 1⟩).writeFault = true ∧
    (runSweepBatch (fun _ => TrialBehavior.mk true false false (some "0.5"))
        [⟨"SIN", 1000, 1⟩, ⟨"SQU", 2000, 2⟩] = ⟨[], true⟩ ∧
      run_test (fun _ => TrialBehavior.mk true false false (some "0.5"))
          ⟨"SIN", 1000, 1⟩ "t0" [] =
        (trialCommands ⟨"SIN", 1000, 1⟩
            ((fun _ : Config => TrialBehavior.mk true false false (some "0.5")) ⟨"SIN", 1000, 1⟩),
          sentinel,
          appendRow [] ["t0", "SIN", toString (1000 : Int), toString (1 : ℚ), sentinel])) :=
  ⟨rfl, write_fault_semantics _ _ _ _ _ _ _ rfl (Or.inl rfl)⟩

/-- C7: with no instrument discovered, the batch variant exits immediately
(store untouched, no command issued) and the interactive variant raises a fatal
startup error before any log write (store untouched, no command issued, the
interactive surface never reached). -/
theorem no_device_startup (devices : List String) (store : Option (List Row))
    (h : devices = []) :
    batchStartup devices store = StartOutcome.exited store [] ∧
    guiStartup devices store = StartOutcome.fatalError store [] := by
  subst h
  exact ⟨rfl, rfl⟩

/-- Witness for C7 at the empty device list. -/
theorem no_device_startup_witness :
    ([] : List String) = [] ∧
    (batchStartup [] (some [["r"]]) = StartOutcome.exited (some [["r"]]) [] ∧
      guiStartup [] (some [["r"]]) = StartOutcome.fatalError (some [["r"]]) []) :=
  ⟨rfl, no_device_startup [] (some [["r"]]) rfl⟩

/-- The nested-loop enumeration equals the list product of its three ranges,
mapped through the configuration constructor. -/
theorem sweepConfigs_eq_product (ws : List String) (fs : List Int) (amps : List ℚ) :
    sweepConfigs ws fs amps =
      (ws ×ˢ (fs ×ˢ amps)).map fun x => Config.mk x.1 x.2.1 x.2.2 := by
  simp only [sweepConfigs, SProd.sprod, List.product, List.map_flatMap, List.map_map,
    Function.comp]
  rfl

/-- The enumeration has exactly N × F × A configurations. -/
theorem sweepConfigs_length (ws : List String) (fs : List Int) (amps : List ℚ) :
    (sweepConfigs ws fs amps).length = ws.length * (fs.length * amps.length) := by
  rw [sweepConfigs_eq_product, List.length_map, List.length_product, List.length_product]

/-- The enumeration has no duplicates when each of the three ranges has none. -/
theorem sweepConfigs_nodup {ws : List String} {fs : List Int} {amps : List ℚ}
    (hw : ws.Nodup) (hf : fs.Nodup) (ha : amps.Nodup) :
    (sweepConfigs ws fs amps).Nodup := by
  rw [sweepConfigs_eq_product]
  have hinj : Function.Injective fun x : String × Int × ℚ => Config.mk x.1 x.2.1 x.2.2 := by
    intro x y hxy
    obtain ⟨a, b, c⟩ := x
    obtain ⟨d, e, f⟩ := y
    simpa [Config.mk.injEq, Prod.ext_iff] using hxy
  exact List.Nodup.map hinj (hw.product (hf.product ha))

/-- A sweep whose configuration writes never fault logs one result per
configuration, in enumeration order, and never halts. -/
theorem runSweepBatch_good (env : Config → TrialBehavior) (cs : List Config)
    (h : ∀ c ∈ cs, (env c).writeFault = false) :
    (runSweepBatch env cs).log.map toCfg = cs ∧ (runSweepBatch env cs).halted = false := by
  induction cs with
  | nil => exact ⟨rfl, rfl⟩
  | cons c rest ih =>
    have hc := h c (by simp)
    have hrest := ih fun d hd => h d (by simp [hd])
    simp [runSweepBatch, hc, toCfg, mkResult, hrest.1, hrest.2]

/-- C2: for a parameter space with N waveform kinds, F frequency steps and A
amplitudes (each range duplicate-free), a sweep in which every trial's writes
and measurement succeed completes without halting, produces exactly N×F×A
trial results whose configurations are exactly the enumeration — waveform
outer, frequency middle, amplitude inner — and that enumeration has no
duplicates, so every combination is visited exactly once. -/
theorem sweep_exhaustive_lex (env : Config → TrialBehavior) (ws : List String)
    (fs : List Int) (amps : List ℚ)
    (hgood : ∀ c ∈ sweepConfigs ws fs amps,
      (env c).writeFault = false ∧ ((env c).queryReply).isSome = true)
    (hw : ws.Nodup) (hf : fs.Nodup) (ha : amps.Nodup) :
    (runSweepBatch env (sweepConfigs ws fs amps)).halted = false ∧
    (runSweepBatch env (sweepConfigs ws fs amps)).log.length =
      ws.length * (fs.length * amps.length) ∧
    (runSweepBatch env (sweepConfigs ws fs amps)).log.map toCfg = sweepConfigs ws fs amps ∧
    (sweepConfigs ws fs amps).Nodup := by
  obtain ⟨hmap, hhalt⟩ :=
    runSweepBatch_good env (sweepConfigs ws fs amps) fun c hc => (hgood c hc).1
  refine ⟨hhalt, ?_, hmap, sweepConfigs_nodup hw hf ha⟩
  have hlen := congrArg List.length hmap
  simpa [sweepConfigs_length] using hlen

/-- Witness for C2 at the batch script's own parameter space (3 × 5 × 3). -/
theorem sweep_exhaustive_lex_witness :
    (∀ c ∈ sweepConfigs waveform_types batchFreqs amplitudes,
      ((fun _ : Config => TrialBehavior.mk false false false (some "0.5")) c).writeFault
          = false ∧
      (((fun _ : Config => TrialBehavior.mk false false false (some "0.5")) c).queryReply).isSome
          = true) ∧
    waveform_types.Nodup ∧ batchFreqs.Nodup ∧ amplitudes.Nodup ∧
    ((runSweepBatch (fun _ => TrialBehavior.mk false false false (some "0.5"))
        (sweepConfigs waveform_types batchFreqs amplitudes)).halted = false ∧
      (runSweepBatch (fun _ => TrialBehavior.mk false false false (some "0.5"))
          (sweepConfigs waveform_types batchFreqs amplitudes)).log.length =
        waveform_types.length * (batchFreqs.length * amplitudes.length) ∧
      (runSweepBatch (fun _ => TrialBehavior.mk false false false (some "0.5"))
          (sweepConfigs waveform_types batchFreqs amplitudes)).log.map toCfg =
        sweepConfigs waveform_types batchFreqs amplitudes ∧
      (sweepConfigs waveform_types batchFreqs amplitudes).Nodup) :=
  ⟨fun _ _ => ⟨rfl, rfl⟩, by decide, by decide, by decide,
    sweep_exhaustive_lex _ _ _ _ (fun _ _ => ⟨rfl, rfl⟩) (by decide) (by decide) (by decide)⟩

/-- Counterexample to C5 as stated: in the interactive variant an existing but
empty store receives no header from `init_log` (only `FileNotFoundError`, i.e.
a nonexistent store, triggers the header write), so the first row ever
appended to it is a data row and the header never appears. -/
theorem log_writer_empty_store_counterexample :
    init_log (some []) = some [] ∧
    appendRow ((init_log (some [])).getD []) ["t0", "SIN", "1000", "1", "0.5"] =
      [["t0", "SIN", "1000", "1", "0.5"]] ∧
    header ∉ appendRow ((init_log (some [])).getD []) ["t0", "SIN", "1000", "1", "0.5"] := by
  refine ⟨rfl, rfl, ?_⟩
  decide

/-- Appending rows one call at a time concatenates them in order. -/
theorem appendAll_eq (rows newRows : List Row) : appendAll rows newRows = rows ++ newRows := by
  induction newRows generalizing rows with
  | nil => simp [appendAll]
  | cons r rs ih =>
    have hstep : appendAll rows (r :: rs) = appendAll (appendRow rows r) rs := rfl
    rw [hstep, ih, appendRow]
    simp

/-- C5 amended: the batch variant's setup writes the header when the store is
missing or empty and leaves a nonempty store unchanged; the interactive
variant's `init_log` writes the header only when the store does not exist and
leaves any existing store — even an empty one — unchanged; every append adds
exactly one data row at the end, never rewriting or reordering prior rows; and
a store freshly initialised from nonexistent carries the header exactly once,
at the first position, across any sequence of data-row appends. -/
theorem log_writer_amended (rows rs : List Row) (row : Row) (newRows : List Row)
    (hrs : rs ≠ []) (hdata : ∀ r ∈ newRows, r ≠ header) :
    batchLogSetup none = [header] ∧
    batchLogSetup (some []) = [header] ∧
    batchLogSetup (some rs) = rs ∧
    init_log none = some [header] ∧
    init_log (some rows) = some rows ∧
    appendRow rows row = rows ++ [row] ∧
    (appendRow rows row).length = rows.length + 1 ∧
    (appendRow rows row).take rows.length = rows ∧
    appendAll [header] newRows = header :: newRows ∧
    (appendAll [header] newRows).count header = 1 := by
  have h0 : newRows.count header = 0 :=
    List.count_eq_zero.2 fun hmem => hdata header hmem rfl
  refine ⟨rfl, rfl, ?_, rfl, rfl, rfl, by simp [appendRow], by simp [appendRow], ?_, ?_⟩
  · cases rs with
    | nil => exact absurd rfl hrs
    | cons a l => rfl
  · rw [appendAll_eq]
    rfl
  · rw [appendAll_eq, List.singleton_append, List.count_cons_self, h0]

/-- Witness for C5's amended statement on a concrete store and data row. -/
theorem log_writer_amended_witness :
    ([["x"]] : List Row) ≠ [] ∧
    (∀ r ∈ ([["t0", "SIN", "1000", "1", "0.5"]] : List Row), r ≠ header) ∧
    (batchLogSetup none = [header] ∧
      batchLogSetup (some []) = [header] ∧
      batchLogSetup (some [["x"]]) = [["x"]] ∧
      init_log none = some [header] ∧
      init_log (some [["x"]]) = some [["x"]] ∧
      appendRow [["x"]] ["y"] = [["x"]] ++ [["y"]] ∧
      (appendRow [["x"]] ["y"]).length = [["x"]].length + 1 ∧
      (appendRow [["x"]] ["y"]).take [["x"]].length = [["x"]] ∧
      appendAll [header] [["t0", "SIN", "1000", "1", "0.5"]] =
        header :: [["t0", "SIN", "1000", "1", "0.5"]] ∧
      (appendAll [header] [["t0", "SIN", "1000", "1", "0.5"]]).count header = 1) :=
  ⟨by decide, by decide,
    log_writer_amended [["x"]] [["x"]] ["y"] [["t0", "SIN", "1000", "1", "0.5"]]
      (by decide) (by decide)⟩

/-- C6: in the interactive variant an out-of-range frequency reading is
rejected with no instrument command issued and no log row appended; in-range
frequency and amplitude readings are accepted and the completed trial appends
exactly one new log row (and displays the measured voltage). -/
theorem gui_input_validation (env : Config → TrialBehavior) (ts w ae1 : String)
    (store : List Row) (fe1 fe2 ae2 : String) (f1 f2 : Int) (a2 : ℚ)
    (h1 : tclGetInt fe1 = some f1) (h2 : f1 < freq_min ∨ f1 > freq_max)
    (h3 : tclGetInt fe2 = some f2) (h4 : tclGetDouble ae2 = some a2)
    (h5 : freq_min ≤ f2) (h6 : f2 ≤ freq_max) (h7 : amp_min ≤ a2) (h8 : a2 ≤ amp_max) :
    start_test env ts w fe1 ae1 store = ([], store, none) ∧
    start_test env ts w fe2 ae2 store =
      (trialCommands ⟨w, f2, a2⟩ (env ⟨w, f2, a2⟩),
        appendRow store [ts, w, toString f2, toString a2,
          (run_test env ⟨w, f2, a2⟩ ts store).2.1],
        some (run_test env ⟨w, f2, a2⟩ ts store).2.1) ∧
    (appendRow store [ts, w, toString f2, toString a2,
        (run_test env ⟨w, f2, a2⟩ ts store).2.1]).length = store.length + 1 := by
  refine ⟨?_, ?_, by simp [appendRow]⟩
  · have hv : validate_inputs (tclGetInt fe1) (tclGetDouble ae1) = false := by
      rw [h1]
      cases hta : tclGetDouble ae1 with
      | none => rfl
      | some q =>
        simp only [validate_inputs]
        rw [if_pos h2]
    simp [start_test, hv]
  · have hv : validate_inputs (some f2) (some a2) = true := by
      simp only [validate_inputs]
      rw [if_neg (by omega), if_neg (by push_neg; exact ⟨h7, h8⟩)]
    simp [start_test, h3, h4, hv, run_test]

/-- Witness for C6: frequency 5 is rejected; frequency 1000 with amplitude 1.0
is accepted and appends one row. -/
theorem gui_input_validation_witness :
    tclGetInt "5" = some 5 ∧
    ((5 : Int) < freq_min ∨ (5 : Int) > freq_max) ∧
    tclGetInt "1000" = some 1000 ∧
    tclGetDouble "1.0" = some 1 ∧
    freq_min ≤ (1000 : Int) ∧ (1000 : Int) ≤ freq_max ∧
    amp_min ≤ (1 : ℚ) ∧ (1 : ℚ) ≤ amp_max ∧
    (start_test (fun _ => TrialBehavior.mk false false false (some "0.5"))
        "t0" "SIN" "5" "1.0" [] = ([], [], none) ∧
      start_test (fun _ => TrialBehavior.mk false false false (some "0.5"))
          "t0" "SIN" "1000" "1.0" [] =
        (trialCommands ⟨"SIN", 1000, 1⟩
            ((fun _ : Config => TrialBehavior.mk false false false (some "0.5"))
              ⟨"SIN", 1000, 1⟩),
          appendRow [] ["t0", "SIN", toString (1000 : Int), toString (1 : ℚ),
            (run_test (fun _ => TrialBehavior.mk false false false (some "0.5"))
              ⟨"SIN", 1000, 1⟩ "t0" []).2.1],
          some (run_test (fun _ => TrialBehavior.mk false false false (some "0.5"))
            ⟨"SIN", 1000, 1⟩ "t0" []).2.1) ∧
      (appendRow [] ["t0", "SIN", toString (1000 : Int), toString (1 : ℚ),
          (run_test (fun _ => TrialBehavior.mk false false false (some "0.5"))
            ⟨"SIN", 1000, 1⟩ "t0" []).2.1]).length = ([] : List Row).length + 1) :=
  ⟨by decide, by decide, by decide,
    by
      simp +decide only [tclGetDouble, parseDecimalDigits, parseFracPart, String.toList]
      norm_num [show Char.toNat '1' = 49 from rfl, show Char.toNat '0' = 48 from rfl],
    by decide, by decide, by norm_num [amp_min], by norm_num [amp_max],
    gui_input_validation (fun _ => TrialBehavior.mk false false false (some "0.5"))
      "t0" "SIN" "1.0" [] "5" "1000" "1.0" 5 1000 1 (by decide) (by decide) (by decide)
      (by
        simp +decide only [tclGetDouble, parseDecimalDigits, parseFracPart, String.toList]
        norm_num [show Char.toNat '1' = 49 from rfl, show Char.toNat '0' = 48 from rfl])
      (by decide) (by decide) (by norm_num [amp_min]) (by norm_num [amp_max])⟩

/-- C10: the interactive frequency field is an integer variable, so any entry
that reads as a non-integer decimal number — even one inside the
[10, 1000000] Hz bound, such as "10.5" — fails the integer read and is
rejected as invalid numeric input: no instrument command is issued and no log
row is written. -/
theorem intvar_rejects_noninteger (env : Config → TrialBehavior) (ts w ae s : String)
    (store : List Row) (q : ℚ)
    (_hq : tclGetDouble s = some q) (_hlo : (freq_min : ℚ) ≤ q) (_hhi : q ≤ (freq_max : ℚ))
    (hs : tclGetInt s = none) :
    start_test env ts w s ae store = ([], store, none) := by
  have hv : validate_inputs (tclGetInt s) (tclGetDouble ae) = false := by
    rw [hs]
    cases hta : tclGetDouble ae <;> rfl
  simp [start_test, hv]

/-- Witness for C10 at the entry "10.5": it parses as the in-range decimal
21/2 but not as an integer, and the trial is rejected. -/
theorem intvar_rejects_noninteger_witness :
    tclGetDouble "10.5" = some (21 / 2) ∧
    (freq_min : ℚ) ≤ 21 / 2 ∧
    (21 / 2 : ℚ) ≤ (freq_max : ℚ) ∧
    tclGetInt "10.5" = none ∧
    start_test (fun _ => TrialBehavior.mk false false false (some "0.5"))
        "t0" "SIN" "10.5" "1.0" [] = ([], [], none) :=
  ⟨by
      simp +decide only [tclGetDouble, parseDecimalDigits, parseFracPart, String.toList]
      norm_num [show Char.toNat '1' = 49 from rfl, show Char.toNat '0' = 48 from rfl,
        show Char.toNat '5' = 53 from rfl],
    by norm_num [freq_min], by norm_num [freq_max], by decide,
    intvar_rejects_noninteger (fun _ => TrialBehavior.mk false false false (some "0.5"))
      "t0" "SIN" "1.0" "10.5" [] (21 / 2)
      (by
        simp +decide only [tclGetDouble, parseDecimalDigits, parseFracPart, String.toList]
        norm_num [show Char.toNat '1' = 49 from rfl, show Char.toNat '0' = 48 from rfl,
          show Char.toNat '5' = 53 from rfl])
      (by norm_num [freq_min]) (by norm_num [freq_max]) (by decide)⟩

end SignalFramework
